import Mathlib

/-!
Verification of the ESPino32 OTA demo sketch (`src/ESPino32_OTA_Demo/src/main.cpp`).

The sketch is a single-file Arduino host loop that keeps two global boolean
flags, reconnects WiFi and the ThingsBoard server, sends the current firmware
identity and state once, subscribes to OTA updates once, and reboots from the
OTA completion callback on success.  We embed it shallowly: the transport and
WiFi are oracles (per-cycle boolean outcomes, a stream of WiFi statuses), the
loop body is a pure step function from the flag state and an oracle record to
the next flag state plus the list of externally visible actions it performs,
and the blocking WiFi wait is a fuel-indexed runner.
-/

namespace ESPino32OTA

/-- Firmware title constant (`CURRENT_FIRMWARE_TITLE`, main.cpp line 8). -/
def CURRENT_FIRMWARE_TITLE : String := "ESPino32"

/-- Firmware version constant (`CURRENT_FIRMWARE_VERSION`, main.cpp line 9). -/
def CURRENT_FIRMWARE_VERSION : String := "1.0.0"

/-- Firmware state label sent at startup (`FW_STATE_UPDATED`, main.cpp line 15). -/
def FW_STATE_UPDATED : String := "UPDATED"

/-- Maximum per-chunk download retries (`FIRMWARE_FAILURE_RETRIES`, main.cpp
line 18; a `uint8_t` holding 5). -/
def FIRMWARE_FAILURE_RETRIES : Nat := 5

/-- Size of each firmware chunk (`FIRMWARE_PACKET_SIZE`, main.cpp line 22;
a `uint16_t` holding 4096). -/
def FIRMWARE_PACKET_SIZE : Nat := 4096

/-- The argument record of the `OTA_Update_Callback` constructor call at
main.cpp line 58 (progress/updated function pointers elided: they carry no
data). -/
structure OTA_Update_Callback where
  fwTitle : String
  fwVersion : String
  retries : Nat
  packetSize : Nat
deriving DecidableEq

/-- The global `callback` object (main.cpp line 58): built from the four
firmware constants. -/
def callback : OTA_Update_Callback :=
  { fwTitle := CURRENT_FIRMWARE_TITLE
    fwVersion := CURRENT_FIRMWARE_VERSION
    retries := FIRMWARE_FAILURE_RETRIES
    packetSize := FIRMWARE_PACKET_SIZE }

/-- Modelled from the spec: `FirmwareDescriptor` (§3) — the identity of an
announced firmware image.  The eligibility predicate over it lives in the
external ThingsBoard library, not in this repository's sources. -/
structure FirmwareDescriptor where
  title : String
  version : String
  total_size : Nat
  checksum : List Nat
  chunk_size : Nat

/-- Modelled from the spec: `is_update_needed(running, announced)` (§4.1).
The implementation is inside the external ThingsBoard library; the spec (and
the source comment at main.cpp lines 6-7: title must be the same, version
must differ, so downgrading is possible) defines it as
`running.title == announced.title && running.version != announced.version`. -/
def is_update_needed (running announced : FirmwareDescriptor) : Bool :=
  running.title == announced.title && running.version != announced.version

/-- The two global status flags (main.cpp lines 49-50): `currentFWSent` and
`updateRequestSent`, both initialized to `false`. -/
structure DeviceState where
  currentFWSent : Bool
  updateRequestSent : Bool
deriving DecidableEq

/-- The initial values of the global flags (main.cpp lines 49-50). -/
def initialState : DeviceState := { currentFWSent := false, updateRequestSent := false }

/-- Per-cycle outcomes of the external transport calls made by `loop`
(main.cpp lines 69-96): whether `tb.connected()` reports an existing server
connection, and the return values of `tb.connect`, `tb.Firmware_Send_Info`,
`tb.Firmware_Send_State` and `tb.Subscribe_Firmware_Update` should they be
invoked this cycle. -/
structure TbEnv where
  tbConnected : Bool
  tbConnectOk : Bool
  sendInfoOk : Bool
  sendStateOk : Bool
  subscribeOk : Bool
deriving DecidableEq

/-- Externally visible actions a cycle of `loop` can perform, in program
order. -/
inductive Event where
  | connectAttempt
  | sendInfo (title version : String)
  | sendState (label : String)
  | subscribe (cb : OTA_Update_Callback)
  | blink
  | tbLoop
deriving DecidableEq

/-- Whether an event is an invocation of `tb.Firmware_Send_Info`. -/
def Event.isSendInfo : Event → Bool
  | .sendInfo _ _ => true
  | _ => false

/-- Whether an event is an invocation of `tb.Firmware_Send_State`. -/
def Event.isSendState : Event → Bool
  | .sendState _ => true
  | _ => false

/-- Whether an event is an invocation of `tb.Subscribe_Firmware_Update`. -/
def Event.isSubscribe : Event → Bool
  | .subscribe _ => true
  | _ => false

/-- Whether an event is a protocol action in the sense of claim C5: sending
firmware info or state, subscribing to firmware updates, or processing
transport messages (`tb.loop`).  The server connect attempt itself and the
LED blink are not protocol actions. -/
def Event.isProtocol : Event → Bool
  | .sendInfo _ _ => true
  | .sendState _ => true
  | .subscribe _ => true
  | .tbLoop => true
  | _ => false

/-- One cycle of the body of `loop` after the `reconnect()` guard
(main.cpp lines 74-95), as a pure function from the oracle record and the
flag state to the next flag state and the list of performed actions:

* if `tb.connected()` is false, `tb.connect` is attempted; on failure the
  body returns early, leaving both flags unchanged (lines 74-82);
* if `currentFWSent` is false, `currentFWSent` is assigned
  `tb.Firmware_Send_Info(title, version) && tb.Firmware_Send_State("UPDATED")`,
  where `&&` short-circuits: the state send is invoked only when the info
  send returned true (lines 84-86);
* if `updateRequestSent` is false, `updateRequestSent` is assigned
  `tb.Subscribe_Firmware_Update(callback)` (lines 88-91);
* finally `blink()` and `tb.loop()` run (lines 93-95). -/
def loopStep (env : TbEnv) (s : DeviceState) : DeviceState × List Event :=
  if !env.tbConnected && !env.tbConnectOk then
    (s, [Event.connectAttempt])
  else
    let connectEvents : List Event := if env.tbConnected then [] else [Event.connectAttempt]
    let fwEvents : List Event :=
      if s.currentFWSent then []
      else
        Event.sendInfo CURRENT_FIRMWARE_TITLE CURRENT_FIRMWARE_VERSION ::
          (if env.sendInfoOk then [Event.sendState FW_STATE_UPDATED] else [])
    let s1 : DeviceState :=
      if s.currentFWSent then s
      else { s with currentFWSent := env.sendInfoOk && env.sendStateOk }
    let subEvents : List Event :=
      if s1.updateRequestSent then [] else [Event.subscribe callback]
    let s2 : DeviceState :=
      if s1.updateRequestSent then s1
      else { s1 with updateRequestSent := env.subscribeOk }
    (s2, connectEvents ++ fwEvents ++ subEvents ++ [Event.blink, Event.tbLoop])

/-- Iterate `loopStep` over a list of per-cycle oracle records, collecting the
per-cycle event lists. -/
def runLoop (s : DeviceState) : List TbEnv → DeviceState × List (List Event)
  | [] => (s, [])
  | env :: envs =>
    let step := loopStep env s
    let rest := runLoop step.1 envs
    (rest.1, step.2 :: rest.2)

/-- WiFi status as far as the sketch inspects it: `WiFi.status()` is only ever
compared against `WL_CONNECTED` (main.cpp lines 101 and 112). -/
inductive WlStatus where
  | wlConnected
  | wlDisconnected
  | wlIdle
deriving DecidableEq

/-- The `while (WiFi.status() != WL_CONNECTED) delay(500);` wait inside
`initializeWiFi` (main.cpp lines 101-105), run against a stream of statuses
(the value of the i-th `WiFi.status()` check) with bounded fuel.  Returns the
number of delay iterations before the connected check succeeded, or `none`
when the check did not succeed within `fuel` inspections — i.e. the call has
not returned yet. -/
def initializeWiFiRun : Nat → (Nat → WlStatus) → Option Nat
  | 0, _ => none
  | fuel + 1, ws =>
    if ws 0 = WlStatus.wlConnected then some 0
    else (initializeWiFiRun fuel (fun n => ws (n + 1))).map (· + 1)

/-- The `reconnect` function (main.cpp lines 109-119): it checks
`WiFi.status()` once; if connected it returns true, otherwise it runs
`initializeWiFi` (which blocks until a check reports connected) and then
returns true.  `none` means the call has not returned within `fuel` status
inspections. -/
def reconnectRun (fuel : Nat) (ws : Nat → WlStatus) : Option Bool :=
  if ws 0 = WlStatus.wlConnected then some true
  else (initializeWiFiRun fuel (fun n => ws (n + 1))).map (fun _ => true)

/-- One full invocation of `loop` (main.cpp lines 69-96), including the
`reconnect()` guard at the top: `none` when `reconnect` has not returned
within `fuel` WiFi status inspections; otherwise, if `reconnect` returned
false the body returns immediately with no actions (lines 70-72), else the
rest of the body runs as `loopStep`. -/
def loopRun (fuel : Nat) (ws : Nat → WlStatus) (env : TbEnv) (s : DeviceState) :
    Option (DeviceState × List Event) :=
  match reconnectRun fuel ws with
  | none => none
  | some false => some (s, [])
  | some true => some (loopStep env s)

/-- Actions the OTA completion callback can perform. -/
inductive HostAction where
  | logLine (line : String)
  | restart
deriving DecidableEq

/-- The `updatedCallback` completion hook (main.cpp lines 121-128): on
success it logs and calls `esp_restart()`, which does not return; on failure
it logs that the download failed and returns. -/
def updatedCallback (success : Bool) : List HostAction :=
  if success then [HostAction.logLine "Done, Reboot now", HostAction.restart]
  else [HostAction.logLine "Downloading firmware failed"]

end ESPino32OTA

namespace ESPino32OTA

/-- C1: `is_update_needed` is true iff the titles are equal and the versions
differ; no ordering is compared, so a downgrade (same title, older version) is
eligible.  The table instances of spec §8 are included. -/
theorem is_update_needed_correct :
    (∀ running announced : FirmwareDescriptor,
      is_update_needed running announced = true ↔
        (running.title = announced.title ∧ running.version ≠ announced.version)) ∧
    is_update_needed ⟨"T", "1.0.0", 0, [], 0⟩ ⟨"T", "1.0.0", 0, [], 0⟩ = false ∧
    is_update_needed ⟨"T", "1.0.0", 0, [], 0⟩ ⟨"T", "0.9.0", 0, [], 0⟩ = true ∧
    is_update_needed ⟨"T", "1.0.0", 0, [], 0⟩ ⟨"U", "2.0.0", 0, [], 0⟩ = false := by
  refine ⟨fun running announced => ?_, by decide, by decide, by decide⟩
  simp [is_update_needed, Bool.and_eq_true, bne_iff_ne]

/-- C2 counterexample: `Firmware_Send_Info` can be attempted twice in one
session even though its first attempt succeeded.  With the transport oracle
reporting success for `Firmware_Send_Info` but failure for
`Firmware_Send_State` in the first cycle, the shared flag `currentFWSent`
stays false, and the second cycle performs a second `Firmware_Send_Info`
attempt — so the send IS re-attempted after its attempt succeeded,
contradicting the claim. -/
theorem sendInfo_reattempted_after_success :
    TbEnv.sendInfoOk ⟨true, true, true, false, true⟩ = true ∧
    (runLoop initialState
        [⟨true, true, true, false, true⟩, ⟨true, true, true, true, true⟩]).2.map
      (fun evts => evts.countP Event.isSendInfo) = [1, 1] := by
  decide

/-- C2 (amended): `Firmware_Send_Info` and `Firmware_Send_State("UPDATED")`
are guarded by one shared cached flag, set only when both succeed in the same
cycle; once the flag is set neither call is attempted again, and while it is
unset both are (re-)attempted on every cycle whose connection phase succeeds
— `Firmware_Send_State` being attempted exactly when `Firmware_Send_Info`
returned success. -/
theorem fw_send_shared_flag (a b c d e f g : Bool) :
    (f = true →
      (loopStep ⟨a, b, c, d, e⟩ ⟨f, g⟩).1.currentFWSent = true ∧
      (loopStep ⟨a, b, c, d, e⟩ ⟨f, g⟩).2.all
        (fun ev => !(ev.isSendInfo || ev.isSendState)) = true) ∧
    (f = false → (a || b) = true →
      (loopStep ⟨a, b, c, d, e⟩ ⟨f, g⟩).1.currentFWSent = (c && d) ∧
      (loopStep ⟨a, b, c, d, e⟩ ⟨f, g⟩).2.countP Event.isSendInfo = 1 ∧
      (loopStep ⟨a, b, c, d, e⟩ ⟨f, g⟩).2.countP Event.isSendState
        = (if c then 1 else 0)) := by
  cases a <;> cases b <;> cases c <;> cases d <;> cases e <;> cases f <;> cases g <;> decide

/-- C2 witness: both branches of the amended statement at concrete inputs —
a cycle with the flag already set performs no sends, and a connected cycle
with the flag unset where the state send fails leaves the flag unset while
attempting the info send once. -/
theorem fw_send_shared_flag_witness :
    ((loopStep ⟨true, true, true, false, true⟩ ⟨true, false⟩).1.currentFWSent = true ∧
      (loopStep ⟨true, true, true, false, true⟩ ⟨true, false⟩).2.all
        (fun ev => !(ev.isSendInfo || ev.isSendState)) = true) ∧
    ((loopStep ⟨true, true, true, false, true⟩ ⟨false, false⟩).1.currentFWSent = (true && false) ∧
      (loopStep ⟨true, true, true, false, true⟩ ⟨false, false⟩).2.countP Event.isSendInfo = 1 ∧
      (loopStep ⟨true, true, true, false, true⟩ ⟨false, false⟩).2.countP Event.isSendState
        = (if true then 1 else 0)) :=
  ⟨(fw_send_shared_flag true true true false true true false).1 rfl,
   (fw_send_shared_flag true true true false true false false).2 rfl rfl⟩

/-- C3: whenever a `Firmware_Send_State("UPDATED")` attempt occurs in a loop
cycle, the `Firmware_Send_Info` call returned success in that cycle, every
state send carries the label "UPDATED", an info send attempt occurs in the
same cycle, and the info send precedes the state send in program order. -/
theorem sendState_after_successful_sendInfo (a b c d e f g : Bool) :
    0 < (loopStep ⟨a, b, c, d, e⟩ ⟨f, g⟩).2.countP Event.isSendState →
    c = true ∧
    (loopStep ⟨a, b, c, d, e⟩ ⟨f, g⟩).2.all
      (fun ev => !ev.isSendState || (ev == Event.sendState FW_STATE_UPDATED)) = true ∧
    0 < (loopStep ⟨a, b, c, d, e⟩ ⟨f, g⟩).2.countP Event.isSendInfo ∧
    (loopStep ⟨a, b, c, d, e⟩ ⟨f, g⟩).2.indexOf
        (Event.sendInfo CURRENT_FIRMWARE_TITLE CURRENT_FIRMWARE_VERSION) <
      (loopStep ⟨a, b, c, d, e⟩ ⟨f, g⟩).2.indexOf (Event.sendState FW_STATE_UPDATED) := by
  cases a <;> cases b <;> cases c <;> cases d <;> cases e <;> cases f <;> cases g <;> decide

/-- C3 witness: the ordering instantiated at a connected first cycle where
both sends succeed. -/
theorem sendState_after_successful_sendInfo_witness :
    0 < (loopStep ⟨true, true, true, true, true⟩ ⟨false, false⟩).2.countP Event.isSendState ∧
    (true = true ∧
      (loopStep ⟨true, true, true, true, true⟩ ⟨false, false⟩).2.all
        (fun ev => !ev.isSendState || (ev == Event.sendState FW_STATE_UPDATED)) = true ∧
      0 < (loopStep ⟨true, true, true, true, true⟩ ⟨false, false⟩).2.countP Event.isSendInfo ∧
      (loopStep ⟨true, true, true, true, true⟩ ⟨false, false⟩).2.indexOf
          (Event.sendInfo CURRENT_FIRMWARE_TITLE CURRENT_FIRMWARE_VERSION) <
        (loopStep ⟨true, true, true, true, true⟩ ⟨false, false⟩).2.indexOf
          (Event.sendState FW_STATE_UPDATED)) :=
  ⟨by decide, sendState_after_successful_sendInfo true true true true true false false (by decide)⟩

/-- C4 counterexample: on a successful update the completion callback
contains the device restart itself — `esp_restart()` is invoked directly from
`updatedCallback` (main.cpp line 124), so the core does trigger the restart
rather than surfacing an action to the host. -/
theorem updatedCallback_restarts_directly :
    HostAction.restart ∈ updatedCallback true := by
  decide

/-- C4 (amended): when the completion callback reports success it logs and
then directly invokes `esp_restart()` — the restart happens in place inside
the callback and no reboot-request action is surfaced to the host; on failure
it only logs and performs no restart. -/
theorem updatedCallback_success_actions :
    updatedCallback true = [HostAction.logLine "Done, Reboot now", HostAction.restart] ∧
    updatedCallback false = [HostAction.logLine "Downloading firmware failed"] := by
  decide

/-- C5: no protocol action is performed while disconnected — if the server
connection is neither up nor successfully established, the loop body returns
early with both flags unchanged having performed only the connect attempt;
every protocol event in any cycle implies the connection phase succeeded; and
if the WiFi reconnect never returns, the whole loop invocation performs
nothing. -/
theorem no_protocol_when_disconnected (fuel : Nat) (ws : Nat → WlStatus)
    (a b c d e f g : Bool) :
    (a = false → b = false →
      loopStep ⟨a, b, c, d, e⟩ ⟨f, g⟩ = (⟨f, g⟩, [Event.connectAttempt])) ∧
    ((loopStep ⟨a, b, c, d, e⟩ ⟨f, g⟩).2.all
      (fun ev => !ev.isProtocol || (a || b)) = true) ∧
    (reconnectRun fuel ws = none → loopRun fuel ws ⟨a, b, c, d, e⟩ ⟨f, g⟩ = none) := by
  refine ⟨?_, ?_, ?_⟩
  · cases a <;> cases b <;> cases c <;> cases d <;> cases e <;> cases f <;> cases g <;> decide
  · cases a <;> cases b <;> cases c <;> cases d <;> cases e <;> cases f <;> cases g <;> decide
  · intro h
    simp [loopRun, h]

/-- C5 witness: a disconnected cycle at concrete inputs returns early with
the flags unchanged, and a never-connecting WiFi stream suspends the loop
entirely. -/
theorem no_protocol_when_disconnected_witness :
    loopStep ⟨false, false, true, true, true⟩ ⟨false, false⟩
      = (⟨false, false⟩, [Event.connectAttempt]) ∧
    loopRun 0 (fun _ => WlStatus.wlDisconnected) ⟨false, false, true, true, true⟩
      ⟨false, false⟩ = none :=
  ⟨(no_protocol_when_disconnected 0 (fun _ => WlStatus.wlDisconnected)
      false false true true true false false).1 rfl rfl,
   (no_protocol_when_disconnected 0 (fun _ => WlStatus.wlDisconnected)
      false false true true true false false).2.2 (by decide)⟩

/-- Helper: the WiFi wait returns once some status inspection within the fuel
bound reports connected. -/
lemma initializeWiFiRun_isSome (fuel : Nat) :
    ∀ (j : Nat) (ws : Nat → WlStatus), ws j = WlStatus.wlConnected → j < fuel →
      (initializeWiFiRun fuel ws).isSome = true := by
  induction fuel with
  | zero => intro j ws _ hj; exact absurd hj (Nat.not_lt_zero j)
  | succ n ih =>
    intro j ws hc hj
    by_cases h0 : ws 0 = WlStatus.wlConnected
    · simp [initializeWiFiRun, h0]
    · cases j with
      | zero => exact absurd hc h0
      | succ m =>
        have hm : (fun k => ws (k + 1)) m = WlStatus.wlConnected := hc
        have := ih m (fun k => ws (k + 1)) hm (Nat.lt_of_succ_lt_succ hj)
        simp [initializeWiFiRun, h0, this]

/-- Helper: whenever `reconnect` returns, it returns true — both its branches
end in `return true`. -/
lemma reconnectRun_eq_some_true (fuel : Nat) (ws : Nat → WlStatus) (b : Bool)
    (h : reconnectRun fuel ws = some b) : b = true := by
  unfold reconnectRun at h
  by_cases h0 : ws 0 = WlStatus.wlConnected
  · simp [h0] at h
    exact h
  · simp [h0] at h
    exact h.2

/-- A loop invocation on this WiFi status stream never returns: for every
fuel bound, transport oracle and flag state, the `while` wait inside
`initializeWiFi` has not finished and the `loop` invocation has produced no
result. -/
def blocksIndefinitelyOn (ws : Nat → WlStatus) : Prop :=
  ∀ (fuel : Nat) (env : TbEnv) (s : DeviceState),
    initializeWiFiRun fuel ws = none ∧ loopRun fuel ws env s = none

/-- C6 counterexample: on the concrete WiFi status stream that never reports
`WL_CONNECTED`, the `while` wait inside `initializeWiFi` never finishes for
any fuel bound, and consequently a `loop` invocation whose `reconnect` enters
that wait never returns — the driving entry point blocks indefinitely. -/
theorem loop_blocks_when_wifi_never_connects :
    blocksIndefinitelyOn (fun _ => WlStatus.wlDisconnected) := by
  unfold blocksIndefinitelyOn
  have hwifi : ∀ fuel : Nat,
      initializeWiFiRun fuel (fun _ => WlStatus.wlDisconnected) = none := by
    intro fuel
    induction fuel with
    | zero => rfl
    | succ n ih => simp [initializeWiFiRun, ih]
  intro fuel env s
  refine ⟨hwifi fuel, ?_⟩
  simp [loopRun, reconnectRun, hwifi fuel]

/-- C6 (amended): a `loop` invocation performs bounded work and returns
provided the WiFi status stream reports `WL_CONNECTED` at some inspection:
if inspection `k` reports connected, the invocation completes within `k + 1`
status inspections and performs the loop body once.  Status streams that
never report connected keep the connectivity re-establishment path spinning,
so the claim's unconditional bound does not hold. -/
theorem loop_returns_when_wifi_connects (ws : Nat → WlStatus) (k : Nat)
    (env : TbEnv) (s : DeviceState) (h : ws k = WlStatus.wlConnected) :
    loopRun (k + 1) ws env s = some (loopStep env s) := by
  unfold loopRun
  rcases hr : reconnectRun (k + 1) ws with _ | b
  · exfalso
    unfold reconnectRun at hr
    by_cases h0 : ws 0 = WlStatus.wlConnected
    · simp [h0] at hr
    · cases k with
      | zero => exact h0 h
      | succ m =>
        have hm : (fun n => ws (n + 1)) m = WlStatus.wlConnected := h
        have hs := initializeWiFiRun_isSome (m + 2) m (fun n => ws (n + 1)) hm
          (by omega)
        rw [Option.isSome_iff_exists] at hs
        obtain ⟨v, hv⟩ := hs
        simp [h0, hv] at hr
  · have := reconnectRun_eq_some_true (k + 1) ws b hr
    subst this
    rfl

/-- C6 witness: with a stream that is connected at the first inspection, one
unit of fuel suffices for the loop invocation to return and run the body. -/
theorem loop_returns_when_wifi_connects_witness :
    (fun _ : Nat => WlStatus.wlConnected) 0 = WlStatus.wlConnected ∧
    loopRun 1 (fun _ => WlStatus.wlConnected) ⟨true, true, true, true, true⟩ initialState
      = some (loopStep ⟨true, true, true, true, true⟩ initialState) :=
  ⟨rfl, loop_returns_when_wifi_connects (fun _ => WlStatus.wlConnected) 0
    ⟨true, true, true, true, true⟩ initialState rfl⟩

/-- C7: the update session is configured with title "ESPino32", version
"1.0.0", a retry ceiling of 5 (within `uint8` range) and a chunk size of
4096 bytes, and every OTA subscription performed by the loop passes exactly
the `callback` object built from these values. -/
theorem ota_subscription_config (a b c d e f g : Bool) :
    0 < (loopStep ⟨a, b, c, d, e⟩ ⟨f, g⟩).2.countP Event.isSubscribe →
    (loopStep ⟨a, b, c, d, e⟩ ⟨f, g⟩).2.all
      (fun ev => !ev.isSubscribe || (ev == Event.subscribe callback)) = true ∧
    callback = ⟨"ESPino32", "1.0.0", 5, 4096⟩ ∧
    CURRENT_FIRMWARE_TITLE = "ESPino32" ∧
    CURRENT_FIRMWARE_VERSION = "1.0.0" ∧
    FIRMWARE_FAILURE_RETRIES = 5 ∧
    FIRMWARE_FAILURE_RETRIES < 2 ^ 8 ∧
    FIRMWARE_PACKET_SIZE = 4096 := by
  cases a <;> cases b <;> cases c <;> cases d <;> cases e <;> cases f <;> cases g <;> decide

/-- C7 witness: a connected cycle with the subscription flag unset performs
the subscription, and the configured values are as stated. -/
theorem ota_subscription_config_witness :
    0 < (loopStep ⟨true, true, true, true, true⟩ ⟨false, false⟩).2.countP Event.isSubscribe ∧
    ((loopStep ⟨true, true, true, true, true⟩ ⟨false, false⟩).2.all
      (fun ev => !ev.isSubscribe || (ev == Event.subscribe callback)) = true ∧
    callback = ⟨"ESPino32", "1.0.0", 5, 4096⟩ ∧
    CURRENT_FIRMWARE_TITLE = "ESPino32" ∧
    CURRENT_FIRMWARE_VERSION = "1.0.0" ∧
    FIRMWARE_FAILURE_RETRIES = 5 ∧
    FIRMWARE_FAILURE_RETRIES < 2 ^ 8 ∧
    FIRMWARE_PACKET_SIZE = 4096) :=
  ⟨by decide, ota_subscription_config true true true true true false false (by decide)⟩

/-- C8: error outcomes do not crash or restart the device — a failed server
connect attempt returns from the loop body with both flags unchanged, having
performed only the connect attempt, and the completion callback invoked with
success = false only logs the failure and performs no restart. -/
theorem error_paths_leave_device_running (a b c d e f g : Bool)
    (h1 : a = false) (h2 : b = false) :
    loopStep ⟨a, b, c, d, e⟩ ⟨f, g⟩ = (⟨f, g⟩, [Event.connectAttempt]) ∧
    updatedCallback false = [HostAction.logLine "Downloading firmware failed"] ∧
    HostAction.restart ∉ updatedCallback false := by
  subst h1
  subst h2
  exact ⟨rfl, rfl, by decide⟩

/-- C8 witness: the connect-failure path at concrete inputs. -/
theorem error_paths_leave_device_running_witness :
    ((false : Bool) = false ∧ (false : Bool) = false) ∧
    (loopStep ⟨false, false, true, true, true⟩ ⟨false, false⟩
        = (⟨false, false⟩, [Event.connectAttempt]) ∧
      updatedCallback false = [HostAction.logLine "Downloading firmware failed"] ∧
      HostAction.restart ∉ updatedCallback false) :=
  ⟨⟨rfl, rfl⟩, error_paths_leave_device_running false false true true true false false rfl rfl⟩

/-- C9: `reconnect` never returns false — whenever it returns at all, it
returns true (either WiFi is already connected, or it blocks inside
`initializeWiFi` until a status inspection reports connected and then returns
true) — and consequently the early-return branch guarded by `!reconnect()` at
the top of `loop` is unreachable: whenever a loop invocation returns, its
result is the full loop body. -/
theorem reconnect_returns_true (fuel : Nat) (ws : Nat → WlStatus) :
    reconnectRun fuel ws ≠ some false ∧
    ∀ (env : TbEnv) (s : DeviceState) (r : DeviceState × List Event),
      loopRun fuel ws env s = some r → r = loopStep env s := by
  constructor
  · intro h
    have hfalse := reconnectRun_eq_some_true fuel ws false h
    exact absurd hfalse (by decide)
  · intro env s r h
    rcases hr : reconnectRun fuel ws with _ | b
    · simp [loopRun, hr] at h
    · have hb := reconnectRun_eq_some_true fuel ws b hr
      subst hb
      simp [loopRun, hr] at h
      exact h.symm

/-- C9 witness: a loop invocation on an immediately connected stream returns
and yields exactly the loop body result. -/
theorem reconnect_returns_true_witness :
    loopRun 1 (fun _ => WlStatus.wlConnected) ⟨true, true, true, true, true⟩ initialState
      = some (loopStep ⟨true, true, true, true, true⟩ initialState) ∧
    loopStep ⟨true, true, true, true, true⟩ initialState
      = loopStep ⟨true, true, true, true, true⟩ initialState :=
  ⟨rfl, (reconnect_returns_true 1 (fun _ => WlStatus.wlConnected)).2
    ⟨true, true, true, true, true⟩ initialState _ rfl⟩

/-- Helper: a cycle entered with `currentFWSent` already true keeps it true
and performs no firmware info/state send. -/
lemma loopStep_fw_true (env : TbEnv) (s : DeviceState) (h : s.currentFWSent = true) :
    (loopStep env s).1.currentFWSent = true ∧
    (loopStep env s).2.all (fun ev => !(ev.isSendInfo || ev.isSendState)) = true := by
  obtain ⟨a, b, c, d, e⟩ := env
  obtain ⟨f, g⟩ := s
  change f = true at h
  subst h
  cases a <;> cases b <;> cases c <;> cases d <;> cases e <;> cases g <;> decide

/-- Helper: a cycle entered with `updateRequestSent` already true keeps it
true and performs no firmware-update subscription. -/
lemma loopStep_sub_true (env : TbEnv) (s : DeviceState) (h : s.updateRequestSent = true) :
    (loopStep env s).1.updateRequestSent = true ∧
    (loopStep env s).2.all (fun ev => !ev.isSubscribe) = true := by
  obtain ⟨a, b, c, d, e⟩ := env
  obtain ⟨f, g⟩ := s
  change g = true at h
  subst h
  cases a <;> cases b <;> cases c <;> cases d <;> cases e <;> cases f <;> decide

/-- Helper: once `currentFWSent` is true it stays true over any run, and no
later cycle performs a firmware info/state send. -/
lemma runLoop_fw_true : ∀ (envs : List TbEnv) (s : DeviceState),
    s.currentFWSent = true →
    (runLoop s envs).1.currentFWSent = true ∧
    ∀ evts ∈ (runLoop s envs).2,
      evts.all (fun ev => !(ev.isSendInfo || ev.isSendState)) = true := by
  intro envs
  induction envs with
  | nil =>
    intro s h
    exact ⟨h, by intro evts hm; simp [runLoop] at hm⟩
  | cons env rest ih =>
    intro s h
    have hstep := loopStep_fw_true env s h
    have hrec := ih (loopStep env s).1 hstep.1
    constructor
    · simpa [runLoop] using hrec.1
    · intro evts hm
      simp [runLoop] at hm
      rcases hm with hm | hm
      · subst hm
        exact hstep.2
      · exact hrec.2 evts hm

/-- Helper: once `updateRequestSent` is true it stays true over any run, and
no later cycle performs a firmware-update subscription. -/
lemma runLoop_sub_true : ∀ (envs : List TbEnv) (s : DeviceState),
    s.updateRequestSent = true →
    (runLoop s envs).1.updateRequestSent = true ∧
    ∀ evts ∈ (runLoop s envs).2, evts.all (fun ev => !ev.isSubscribe) = true := by
  intro envs
  induction envs with
  | nil =>
    intro s h
    exact ⟨h, by intro evts hm; simp [runLoop] at hm⟩
  | cons env rest ih =>
    intro s h
    have hstep := loopStep_sub_true env s h
    have hrec := ih (loopStep env s).1 hstep.1
    constructor
    · simpa [runLoop] using hrec.1
    · intro evts hm
      simp [runLoop] at hm
      rcases hm with hm | hm
      · subst hm
        exact hstep.2
      · exact hrec.2 evts hm

/-- C10: the global flags are monotone over the process lifetime — both start
false; once `currentFWSent` is true it stays true over any sequence of cycles
and no firmware info/state send is ever performed again; once
`updateRequestSent` is true it stays true and no subscription is performed
again; and while a flag is false, a cycle whose connection phase succeeds
assigns it exactly the result of its guarded transport call. -/
theorem sent_flags_monotone :
    initialState.currentFWSent = false ∧
    initialState.updateRequestSent = false ∧
    (∀ (envs : List TbEnv) (s : DeviceState), s.currentFWSent = true →
      (runLoop s envs).1.currentFWSent = true ∧
      ∀ evts ∈ (runLoop s envs).2,
        evts.all (fun ev => !(ev.isSendInfo || ev.isSendState)) = true) ∧
    (∀ (envs : List TbEnv) (s : DeviceState), s.updateRequestSent = true →
      (runLoop s envs).1.updateRequestSent = true ∧
      ∀ evts ∈ (runLoop s envs).2, evts.all (fun ev => !ev.isSubscribe) = true) ∧
    (∀ a b c d e g : Bool, (a || b) = true →
      (loopStep ⟨a, b, c, d, e⟩ ⟨false, g⟩).1.currentFWSent = (c && d)) ∧
    (∀ a b c d e f : Bool, (a || b) = true →
      (loopStep ⟨a, b, c, d, e⟩ ⟨f, false⟩).1.updateRequestSent = e) := by
  refine ⟨rfl, rfl, runLoop_fw_true, runLoop_sub_true, ?_, ?_⟩
  · intro a b c d e g
    cases a <;> cases b <;> cases c <;> cases d <;> cases e <;> cases g <;> decide
  · intro a b c d e f
    cases a <;> cases b <;> cases c <;> cases d <;> cases e <;> cases f <;> decide

/-- C10 witness: starting from a state with both flags set, a concrete run
keeps `currentFWSent` and `updateRequestSent` set. -/
theorem sent_flags_monotone_witness :
    ((DeviceState.mk true true).currentFWSent = true ∧
      (runLoop ⟨true, true⟩ [⟨true, true, true, true, true⟩]).1.currentFWSent = true) ∧
    ((DeviceState.mk true true).updateRequestSent = true ∧
      (runLoop ⟨true, true⟩ [⟨true, true, true, true, true⟩]).1.updateRequestSent = true) :=
  ⟨⟨rfl, (sent_flags_monotone.2.2.1 [⟨true, true, true, true, true⟩] ⟨true, true⟩ rfl).1⟩,
   ⟨rfl, (sent_flags_monotone.2.2.2.1 [⟨true, true, true, true, true⟩] ⟨true, true⟩ rfl).1⟩⟩

end ESPino32OTA
